import Mathlib

/-!
Verification of the sign-off GitHub action.

The embedding below models the action's single module: the two
label checks (`validateReleaseCandidateIssue`, `validateApprovedIssue`),
the issue-body extraction (`parseIssueBody`, built from the two regular
expressions in the source), and the top-level `run` pipeline whose
outbound calls are recorded as an explicit effect trace.

Regular expressions are embedded as deterministic matchers over
`List Char`.  The two patterns in the source,
`-\sRelease\stag:\s(v\d{8}\.\d(-hotfix)*)` and
`-\sBranch:\s((release|hotfix)\/v\d{8}\.\d(-hotfix)*)`, contain no
choice point other than the alternation `release|hotfix` (whose branches
start with different characters), so a single left-to-right attempt per
start position is an exact model of JavaScript `String.match` without
the global flag: the leftmost position whose attempt succeeds wins.
-/

/-- Decimal digit, the JavaScript character class `\d`. -/
def isDigitChar (c : Char) : Bool := decide ('0' ≤ c ∧ c ≤ '9')

/-- The characters matched by the JavaScript character class `\s`. -/
def jsSpaceChars : List Char :=
  [' ', '\t', '\n', '\u000B', '\u000C', '\r', ' ', ' ',
   ' ', ' ', ' ', ' ', ' ', ' ', ' ',
   ' ', ' ', ' ', ' ', ' ', ' ', ' ',
   ' ', '　', '﻿']

/-- Whitespace test for the class `\s`. -/
def isJsSpace (c : Char) : Bool := decide (c ∈ jsSpaceChars)

/-- Consume one expected literal character. -/
def dropChar (c : Char) : List Char → Option (List Char)
  | [] => none
  | x :: t => if x = c then some t else none

/-- Consume one character of a character class. -/
def dropClass (p : Char → Bool) : List Char → Option (List Char)
  | [] => none
  | x :: t => if p x then some t else none

/-- Consume one character of a character class, returning it. -/
def takeClass (p : Char → Bool) : List Char → Option (Char × List Char)
  | [] => none
  | x :: t => if p x then some (x, t) else none

/-- Consume a literal character sequence. -/
def dropLit : List Char → List Char → Option (List Char)
  | [], s => some s
  | c :: cs, s =>
    match dropChar c s with
    | some t => dropLit cs t
    | none => none

/-- Consume exactly `k` digits, returning them, as `\d{k}` does. -/
def takeDigits : Nat → List Char → Option (List Char × List Char)
  | 0, s => some ([], s)
  | k+1, s =>
    match takeClass isDigitChar s with
    | none => none
    | some (c, t) =>
      match takeDigits k t with
      | none => none
      | some (cs, r) => some (c :: cs, r)

/-- Number of consecutive `-hotfix` chunks at the front of the input:
the number of repetitions the greedy `(-hotfix)*` consumes. -/
def hotfixStar : List Char → Nat
  | '-' :: 'h' :: 'o' :: 't' :: 'f' :: 'i' :: 'x' :: rest => hotfixStar rest + 1
  | _ => 0

/-- The characters of one `-hotfix` chunk. -/
def hotfixChunk : List Char := ['-', 'h', 'o', 't', 'f', 'i', 'x']

/-- The characters consumed by `k` repetitions of `(-hotfix)`. -/
def hotfixChars (k : Nat) : List Char := (List.replicate k hotfixChunk).flatten

/-- Literal `Release` inside the tag pattern. -/
def relWord : List Char := ['R', 'e', 'l', 'e', 'a', 's', 'e']

/-- Literal `tag:` inside the tag pattern. -/
def tagWord : List Char := ['t', 'a', 'g', ':']

/-- Literal `Branch:` inside the branch pattern. -/
def branchWord : List Char := ['B', 'r', 'a', 'n', 'c', 'h', ':']

/-- Left alternative `release` of the branch pattern. -/
def releaseWord : List Char := ['r', 'e', 'l', 'e', 'a', 's', 'e']

/-- Right alternative `hotfix` of the branch pattern. -/
def hotfixWord : List Char := ['h', 'o', 't', 'f', 'i', 'x']

/-- Attempt of the tag pattern `-\sRelease\stag:\s(v\d{8}\.\d(-hotfix)*)`
at the start of the input; on success, the text of capture group 1. -/
def tagMatchAt (s : List Char) : Option (List Char) :=
  match dropChar '-' s with
  | none => none
  | some s =>
  match dropClass isJsSpace s with
  | none => none
  | some s =>
  match dropLit relWord s with
  | none => none
  | some s =>
  match dropClass isJsSpace s with
  | none => none
  | some s =>
  match dropLit tagWord s with
  | none => none
  | some s =>
  match dropClass isJsSpace s with
  | none => none
  | some s =>
  match dropChar 'v' s with
  | none => none
  | some s =>
  match takeDigits 8 s with
  | none => none
  | some (ds, s) =>
  match dropChar '.' s with
  | none => none
  | some s =>
  match takeClass isDigitChar s with
  | none => none
  | some (d, rest) => some ('v' :: (ds ++ ('.' :: d :: hotfixChars (hotfixStar rest))))

/-- The alternation `release|hotfix`: its branches start with distinct
characters, so trying `release` first is exact. -/
def branchAlt (s : List Char) : Option (List Char × List Char) :=
  match dropLit releaseWord s with
  | some r => some (releaseWord, r)
  | none =>
    match dropLit hotfixWord s with
    | some r => some (hotfixWord, r)
    | none => none

/-- Attempt of the branch pattern
`-\sBranch:\s((release|hotfix)\/v\d{8}\.\d(-hotfix)*)` at the start of
the input; on success, the text of capture group 1. -/
def branchMatchAt (s : List Char) : Option (List Char) :=
  match dropChar '-' s with
  | none => none
  | some s =>
  match dropClass isJsSpace s with
  | none => none
  | some s =>
  match dropLit branchWord s with
  | none => none
  | some s =>
  match dropClass isJsSpace s with
  | none => none
  | some s =>
  match branchAlt s with
  | none => none
  | some (w, s) =>
  match dropChar '/' s with
  | none => none
  | some s =>
  match dropChar 'v' s with
  | none => none
  | some s =>
  match takeDigits 8 s with
  | none => none
  | some (ds, s) =>
  match dropChar '.' s with
  | none => none
  | some s =>
  match takeClass isDigitChar s with
  | none => none
  | some (d, rest) => some (w ++ ('/' :: 'v' :: (ds ++ ('.' :: d :: hotfixChars (hotfixStar rest)))))

/-- Leftmost-match search: try the attempt at every position from the
left, as `String.match` with a non-global regular expression does. -/
def scanFor (att : List Char → Option (List Char)) : List Char → Option (List Char)
  | [] => att []
  | c :: t =>
    match att (c :: t) with
    | some g => some g
    | none => scanFor att t

/-- Search for the tag pattern, `body.match(tagRegex)` in the source. -/
def findTag (s : List Char) : Option (List Char) := scanFor tagMatchAt s

/-- Search for the branch pattern, `body.match(branchRegex)`. -/
def findBranch (s : List Char) : Option (List Char) := scanFor branchMatchAt s

/-- The two fields extracted from the issue body. -/
structure TagBranch where
  tag : String
  branch : String
deriving DecidableEq

/-- Error message thrown when the tag pattern does not match. -/
def tagErrMsg (body : String) : String :=
  "No \"Release tag\" found in issue body:\n" ++ body

/-- Error message thrown when the branch pattern does not match. -/
def branchErrMsg (body : String) : String :=
  "No \"Branch\" found in issue body:\n" ++ body

/-- The `parseIssueBody` function of the action: extract the release
tag and the branch from the issue body, failing with a message that
embeds the body when a pattern does not match. -/
def parseIssueBody (body : String) : Except String TagBranch :=
  match findTag body.data with
  | none => .error (tagErrMsg body)
  | some t =>
    match findBranch body.data with
    | none => .error (branchErrMsg body)
    | some b => .ok ⟨String.mk t, String.mk b⟩

/-- A label object of the issue tracker; only its name is read. -/
structure Label where
  name : String
deriving DecidableEq

/-- The triggering issue: its labels and its free-text body. -/
structure Issue where
  labels : List Label
  body : String
deriving DecidableEq

/-- The `getLabels` helper: the list of label names. -/
def getLabels (labels : List Label) : List String := labels.map Label.name

/-- The two action inputs read through `core.getInput`. -/
structure Inputs where
  workflowToken : String
  slackWebhookUrl : String
deriving DecidableEq

/-- The `getInput` helper: a missing or empty input (the only falsy
string) is a fatal configuration error. -/
def getInput (value : String) (key : String) : Except String String :=
  if value = "" then .error ("Input \"" ++ key ++ "\" was not defined")
  else .ok value

/-- The marker label `RC_LABEL` of a release-candidate issue. -/
def RC_LABEL : String := "RC"

/-- The approval label `APPROVED_LABEL_PREFIX`; it is compared by
`String.prototype.startsWith`, so suffixed variants also count. -/
def approvedLabelText : String := "QA Approved"

/-- JavaScript `a.startsWith(p)` for strings. -/
def startsWith (s p : String) : Bool := p.data.isPrefixOf s.data

/-- The `validateReleaseCandidateIssue` check: the issue must carry the
`RC` label exactly.  The thrown message interpolates `RC_LABEL`, giving
the literal below. -/
def validateReleaseCandidateIssue (labels : List String) : Except String Unit :=
  if labels.contains RC_LABEL then .ok ()
  else .error "Issue does not have \"RC\" label"

/-- The `validateApprovedIssue` check: some label starts with
`QA Approved`. -/
def validateApprovedIssue (labels : List String) : Bool :=
  labels.any fun l => startsWith l approvedLabelText

/-- A Slack block-kit payload, reduced to the fields the action fills:
the header text, the section text and the optional button link. -/
structure SlackPayload where
  headerText : String
  sectionText : String
  buttonUrl : Option String
deriving DecidableEq

/-- The payload posted by `handleReleaseSignedOff`. -/
def approvedPayload (tag branch releaseUrl : String) : SlackPayload :=
  { headerText := "[" ++ tag ++ "] Release/Hotfix approved ✅"
    sectionText := "`" ++ branch ++ "` is approved for publishing."
    buttonUrl := some releaseUrl }

/-- The payload posted by `handleReleaseCancelled`. -/
def cancelledPayload (tag branch : String) : SlackPayload :=
  { headerText := "[" ++ tag ++ "] Release/Hotfix cancelled ❌"
    sectionText := "`" ++ branch ++ "` was cancelled."
    buttonUrl := none }

/-- One outbound network call of the action, in the order issued. -/
inductive Effect where
  | getIssue : Effect
  | createRelease (name tagName : String) (draft : Bool) (targetCommitish : String) : Effect
  | uploadReleaseAsset (assetName : String) (issue : Issue) : Effect
  | postSlack (webhookUrl : String) (payload : SlackPayload) : Effect
deriving DecidableEq

/-- Result of one run: the trace of outbound calls that were issued,
and the error message reported through `core.setFailed`, if any. -/
structure RunResult where
  effects : List Effect
  failure : Option String
deriving DecidableEq

/-- The `postToSlack` helper: it reads the `slack-webhook-url` input
only at this point, then posts the payload to the webhook. -/
def postToSlack (i : Inputs) (payload : SlackPayload) : List Effect × Option String :=
  match getInput i.slackWebhookUrl "slack-webhook-url" with
  | .error msg => ([], some msg)
  | .ok url => ([Effect.postSlack url payload], none)

/-- The `handleReleaseSignedOff` path: create the published release on
the extracted branch, attach the metadata asset, then notify Slack. -/
def handleReleaseSignedOff (i : Inputs) (releaseUrl : String) (tag branch : String)
    (issue : Issue) : List Effect × Option String :=
  let e1 := Effect.createRelease tag tag false branch
  let e2 := Effect.uploadReleaseAsset "sign-off-metadata.json" issue
  match postToSlack i (approvedPayload tag branch releaseUrl) with
  | (es, f) => (e1 :: e2 :: es, f)

/-- The `handleReleaseCancelled` path: notify Slack only. -/
def handleReleaseCancelled (i : Inputs) (tag branch : String) : List Effect × Option String :=
  postToSlack i (cancelledPayload tag branch)

/-- The top-level `run`: read the token, fetch the issue (one network
read), check the `RC` label, parse the body, then dispatch on approval.
`releaseUrl` stands for the URL the release-creation call returns. -/
def run (i : Inputs) (issue : Issue) (releaseUrl : String) : RunResult :=
  match getInput i.workflowToken "workflow-token" with
  | .error msg => { effects := [], failure := some msg }
  | .ok _ =>
    let labels := getLabels issue.labels
    match validateReleaseCandidateIssue labels with
    | .error msg => { effects := [Effect.getIssue], failure := some msg }
    | .ok _ =>
      match parseIssueBody issue.body with
      | .error msg => { effects := [Effect.getIssue], failure := some msg }
      | .ok tb =>
        if validateApprovedIssue labels then
          match handleReleaseSignedOff i releaseUrl tb.tag tb.branch issue with
          | (es, f) => { effects := Effect.getIssue :: es, failure := f }
        else
          match handleReleaseCancelled i tb.tag tb.branch with
          | (es, f) => { effects := Effect.getIssue :: es, failure := f }

instance {ε α : Type} [DecidableEq ε] [DecidableEq α] : DecidableEq (Except ε α) := fun a b =>
  match a, b with
  | .error x, .error y =>
    if h : x = y then .isTrue (by rw [h]) else .isFalse (fun hh => h (Except.error.inj hh))
  | .ok x, .ok y =>
    if h : x = y then .isTrue (by rw [h]) else .isFalse (fun hh => h (Except.ok.inj hh))
  | .error _, .ok _ => .isFalse (fun hh => Except.noConfusion hh)
  | .ok _, .error _ => .isFalse (fun hh => Except.noConfusion hh)

example : parseIssueBody "- Release tag: v20240115.1\n- Branch: release/v20240115.1"
    = .ok ⟨"v20240115.1", "release/v20240115.1"⟩ := by decide

example : parseIssueBody "- Release tag: v20240115.1-hotfix\n- Branch: hotfix/v20240115.1-hotfix"
    = .ok ⟨"v20240115.1-hotfix", "hotfix/v20240115.1-hotfix"⟩ := by decide

example : parseIssueBody "- Release tag: v20240115.12\n- Branch: release/v20240115.12"
    = .ok ⟨"v20240115.1", "release/v20240115.1"⟩ := by decide

example : run ⟨"t", "w"⟩ ⟨[⟨"RC"⟩, ⟨"QA Approved"⟩], "- Release tag: v20240115.1\n- Branch: release/v20240115.1"⟩ "u"
    = { effects := [Effect.getIssue,
          Effect.createRelease "v20240115.1" "v20240115.1" false "release/v20240115.1",
          Effect.uploadReleaseAsset "sign-off-metadata.json"
            ⟨[⟨"RC"⟩, ⟨"QA Approved"⟩], "- Release tag: v20240115.1\n- Branch: release/v20240115.1"⟩,
          Effect.postSlack "w" (approvedPayload "v20240115.1" "release/v20240115.1" "u")],
        failure := none } := by decide

/-! Helper lemmas shared by the claim theorems. -/

/-- Strings with the same character data are equal. -/
theorem str_ext (a b : String) (h : a.data = b.data) : a = b := by
  cases a; cases b; exact congrArg String.mk h

/-- String concatenation is associative. -/
theorem strAppendAssoc (a b c : String) : (a ++ b) ++ c = a ++ (b ++ c) := by
  apply str_ext
  simp [String.data_append, List.append_assoc]

/-- Character data of the literal prefix of the tag line. -/
theorem dataTagLabel : ("- Release tag: v" : String).data
    = '-' :: ' ' :: 'R' :: 'e' :: 'l' :: 'e' :: 'a' :: 's' :: 'e' :: ' ' :: 't' :: 'a' :: 'g' :: ':' :: ' ' :: 'v' :: [] := rfl

/-- Character data of the literal prefix of the branch line. -/
theorem dataBranchLabel : ("- Branch: release/v" : String).data
    = '-' :: ' ' :: 'B' :: 'r' :: 'a' :: 'n' :: 'c' :: 'h' :: ':' :: ' ' :: 'r' :: 'e' :: 'l' :: 'e' :: 'a' :: 's' :: 'e' :: '/' :: 'v' :: [] := rfl

/-- Character data of a dot. -/
theorem dataDot : ("." : String).data = ['.'] := rfl

/-- Character data of the letter `v`. -/
theorem dataV : ("v" : String).data = ['v'] := rfl

/-- Character data of `release/v`. -/
theorem dataRelV : ("release/v" : String).data
    = 'r' :: 'e' :: 'l' :: 'e' :: 'a' :: 's' :: 'e' :: '/' :: 'v' :: [] := rfl

/-- Character data of a constructed string. -/
theorem dataMk (l : List Char) : (String.mk l).data = l := rfl

/-- A successful attempt at the current position wins the scan. -/
theorem scanFor_of_att (att : List Char → Option (List Char)) (s g : List Char)
    (h : att s = some g) : scanFor att s = some g := by
  cases s <;> simp [scanFor, h]

/-- Positions whose attempts fail are skipped by the scan. -/
theorem scanFor_drop (att : List Char → Option (List Char)) (k : Nat) (s : List Char)
    (h : ∀ j, j < k → att (s.drop j) = none) :
    scanFor att s = scanFor att (s.drop k) := by
  induction k generalizing s with
  | zero => simp
  | succ k ih =>
    cases s with
    | nil => simp
    | cons c t =>
      have h0 : att (c :: t) = none := by simpa using h 0 (Nat.succ_pos k)
      have hstep : scanFor att (c :: t) = scanFor att t := by simp [scanFor, h0]
      rw [hstep, show List.drop (k+1) (c :: t) = List.drop k t from rfl]
      exact ih t (fun j hj => by simpa using h (j+1) (Nat.succ_lt_succ hj))

/-- `\d{k}` consumes exactly a block of `k` digits. -/
theorem takeDigits_append (ds rest : List Char) (hall : ∀ c ∈ ds, isDigitChar c = true) :
    takeDigits ds.length (ds ++ rest) = some (ds, rest) := by
  induction ds with
  | nil => simp [takeDigits]
  | cons c cs ih =>
    have hc : isDigitChar c = true := hall c (by simp)
    simp [takeDigits, takeClass, hc, ih (fun x hx => hall x (by simp [hx]))]

/-- The tag pattern succeeds at a well-formed tag line and captures the
tag, provided no `-hotfix` chunk immediately follows the digit. -/
theorem tagMatchAt_line (ds : List Char) (d : Char) (rest : List Char)
    (h8 : ds.length = 8) (hall : ∀ c ∈ ds, isDigitChar c = true)
    (hd : isDigitChar d = true) (hz : hotfixStar rest = 0) :
    tagMatchAt ('-' :: ' ' :: 'R' :: 'e' :: 'l' :: 'e' :: 'a' :: 's' :: 'e' :: ' ' :: 't' :: 'a' :: 'g' :: ':' :: ' ' :: 'v' :: (ds ++ ('.' :: d :: rest)))
      = some ('v' :: (ds ++ ['.', d])) := by
  have htd := takeDigits_append ds ('.' :: d :: rest) hall
  rw [h8] at htd
  have hsp : isJsSpace ' ' = true := by decide
  simp [tagMatchAt, dropChar, dropClass, dropLit, relWord, tagWord, hsp, htd, takeClass, hd, hz,
    hotfixChars]

/-- The branch pattern succeeds at a well-formed `release/` branch line
and captures the branch, provided no `-hotfix` chunk follows. -/
theorem branchMatchAt_line (ds : List Char) (d : Char) (rest : List Char)
    (h8 : ds.length = 8) (hall : ∀ c ∈ ds, isDigitChar c = true)
    (hd : isDigitChar d = true) (hz : hotfixStar rest = 0) :
    branchMatchAt ('-' :: ' ' :: 'B' :: 'r' :: 'a' :: 'n' :: 'c' :: 'h' :: ':' :: ' ' :: 'r' :: 'e' :: 'l' :: 'e' :: 'a' :: 's' :: 'e' :: '/' :: 'v' :: (ds ++ ('.' :: d :: rest)))
      = some ('r' :: 'e' :: 'l' :: 'e' :: 'a' :: 's' :: 'e' :: '/' :: 'v' :: (ds ++ ['.', d])) := by
  have htd := takeDigits_append ds ('.' :: d :: rest) hall
  rw [h8] at htd
  have hsp : isJsSpace ' ' = true := by decide
  simp [branchMatchAt, dropChar, dropClass, dropLit, branchWord, branchAlt, releaseWord, hsp, htd,
    takeClass, hd, hz, hotfixChars]

/-- When both searches succeed, parsing returns their captures. -/
theorem parse_ok_of_finds (body : String) (t b : List Char)
    (h1 : findTag body.data = some t) (h2 : findBranch body.data = some b) :
    parseIssueBody body = .ok ⟨String.mk t, String.mk b⟩ := by
  simp [parseIssueBody, h1, h2]

/-- Characterization of the approval check: some label name extends the
`QA Approved` text. -/
theorem validApproved_iff (labels : List String) :
    validateApprovedIssue labels = true
      ↔ ∃ l ∈ labels, ∃ r, approvedLabelText.data ++ r = l.data := by
  simp only [validateApprovedIssue, List.any_eq_true, startsWith]
  constructor
  · rintro ⟨l, hl, hp⟩
    rcases List.isPrefixOf_iff_prefix.mp hp with ⟨r, hr⟩
    exact ⟨l, hl, r, hr⟩
  · rintro ⟨l, hl, r, hr⟩
    exact ⟨l, hl, List.isPrefixOf_iff_prefix.mpr ⟨r, hr⟩⟩

/-- The two extraction error messages are never the same string. -/
theorem errMsg_ne (b1 b2 : String) : tagErrMsg b1 ≠ branchErrMsg b2 := by
  intro h
  have h4 := congrArg (fun s => s.data[4]?) h
  simp only [tagErrMsg, branchErrMsg, String.data_append] at h4
  have e1 : (("No \"Release tag\" found in issue body:\n" : String).data ++ b1.data)[4]? = some 'R' := rfl
  have e2 : (("No \"Branch\" found in issue body:\n" : String).data ++ b2.data)[4]? = some 'B' := rfl
  rw [e1, e2] at h4
  exact absurd (Option.some.inj h4) (by decide)

/-- Core extraction correctness: a body decomposed around a well-formed
tag line and a well-formed `release/` branch line, where each line is
the leftmost match of its pattern and is not extended by a `-hotfix`
chunk, parses to exactly the two embedded values. -/
theorem parseIssueBody_wellformed (pre mid post d8 e8 : String) (n m : Char)
    (h8 : d8.data.length = 8) (ha : ∀ c ∈ d8.data, isDigitChar c = true)
    (h8' : e8.data.length = 8) (hb : ∀ c ∈ e8.data, isDigitChar c = true)
    (hn : isDigitChar n = true) (hm : isDigitChar m = true)
    (body tag branch : String)
    (hbody : body = pre ++ "- Release tag: v" ++ d8 ++ "." ++ String.mk [n] ++ mid
      ++ "- Branch: release/v" ++ e8 ++ "." ++ String.mk [m] ++ post)
    (htag : tag = "v" ++ d8 ++ "." ++ String.mk [n])
    (hbr : branch = "release/v" ++ e8 ++ "." ++ String.mk [m])
    (hz1 : hotfixStar (mid ++ "- Branch: release/v" ++ e8 ++ "." ++ String.mk [m] ++ post).data = 0)
    (hz2 : hotfixStar post.data = 0)
    (hfirstT : ∀ j, j < pre.data.length → tagMatchAt (body.data.drop j) = none)
    (hfirstB : ∀ j, j < (pre ++ "- Release tag: v" ++ d8 ++ "." ++ String.mk [n] ++ mid).data.length →
      branchMatchAt (body.data.drop j) = none) :
    parseIssueBody body = .ok ⟨tag, branch⟩ := by
  have hsplit1 : body.data = pre.data ++
      ('-' :: ' ' :: 'R' :: 'e' :: 'l' :: 'e' :: 'a' :: 's' :: 'e' :: ' ' :: 't' :: 'a' :: 'g' :: ':' :: ' ' :: 'v' ::
        (d8.data ++ ('.' :: n :: (mid.data ++
          ('-' :: ' ' :: 'B' :: 'r' :: 'a' :: 'n' :: 'c' :: 'h' :: ':' :: ' ' :: 'r' :: 'e' :: 'l' :: 'e' :: 'a' :: 's' :: 'e' :: '/' :: 'v' ::
            (e8.data ++ ('.' :: m :: post.data))))))) := by
    simp [hbody, String.data_append, dataTagLabel, dataBranchLabel, dataDot, dataMk,
      List.append_assoc]
  have hz1' : hotfixStar (mid.data ++
      ('-' :: ' ' :: 'B' :: 'r' :: 'a' :: 'n' :: 'c' :: 'h' :: ':' :: ' ' :: 'r' :: 'e' :: 'l' :: 'e' :: 'a' :: 's' :: 'e' :: '/' :: 'v' ::
        (e8.data ++ ('.' :: m :: post.data)))) = 0 := by
    have hdm : (mid ++ "- Branch: release/v" ++ e8 ++ "." ++ String.mk [m] ++ post).data = mid.data ++
        ('-' :: ' ' :: 'B' :: 'r' :: 'a' :: 'n' :: 'c' :: 'h' :: ':' :: ' ' :: 'r' :: 'e' :: 'l' :: 'e' :: 'a' :: 's' :: 'e' :: '/' :: 'v' ::
          (e8.data ++ ('.' :: m :: post.data))) := by
      simp [String.data_append, dataBranchLabel, dataDot, dataMk, List.append_assoc]
    rwa [hdm] at hz1
  have hT : findTag body.data = some ('v' :: (d8.data ++ ['.', n])) := by
    rw [findTag, scanFor_drop tagMatchAt pre.data.length body.data hfirstT, hsplit1,
      List.drop_left]
    exact scanFor_of_att _ _ _ (tagMatchAt_line d8.data n _ h8 ha hn hz1')
  have hB : findBranch body.data
      = some ('r' :: 'e' :: 'l' :: 'e' :: 'a' :: 's' :: 'e' :: '/' :: 'v' :: (e8.data ++ ['.', m])) := by
    have hsplit2 : body.data = (pre ++ "- Release tag: v" ++ d8 ++ "." ++ String.mk [n] ++ mid).data ++
        ('-' :: ' ' :: 'B' :: 'r' :: 'a' :: 'n' :: 'c' :: 'h' :: ':' :: ' ' :: 'r' :: 'e' :: 'l' :: 'e' :: 'a' :: 's' :: 'e' :: '/' :: 'v' ::
          (e8.data ++ ('.' :: m :: post.data))) := by
      simp [hbody, String.data_append, dataTagLabel, dataBranchLabel, dataDot, dataMk,
        List.append_assoc]
    rw [findBranch,
      scanFor_drop branchMatchAt (pre ++ "- Release tag: v" ++ d8 ++ "." ++ String.mk [n] ++ mid).data.length body.data hfirstB,
      hsplit2, List.drop_left]
    exact scanFor_of_att _ _ _ (branchMatchAt_line e8.data m post.data h8' hb hm hz2)
  have hok := parse_ok_of_finds body _ _ hT hB
  have htag' : String.mk ('v' :: (d8.data ++ ['.', n])) = tag := by
    apply str_ext
    simp [htag, String.data_append, dataV, dataDot, dataMk, List.append_assoc]
  have hbr' : String.mk ('r' :: 'e' :: 'l' :: 'e' :: 'a' :: 's' :: 'e' :: '/' :: 'v' :: (e8.data ++ ['.', m])) = branch := by
    apply str_ext
    simp [hbr, String.data_append, dataRelV, dataDot, dataMk, List.append_assoc]
  rw [htag', hbr'] at hok
  exact hok

/-! Claim theorems. -/

/-- C1 counterexample: the claim admits sequence numbers of more than
one digit, but the pattern `\d` in the source captures a single digit,
so both extracted values are truncated for `N = 12`. -/
theorem C1_counterexample :
    parseIssueBody "- Release tag: v20240115.12\n- Branch: release/v20240115.12"
      = .ok ⟨"v20240115.1", "release/v20240115.1"⟩
    ∧ ("v20240115.1" : String) ≠ "v20240115.12"
    ∧ ("release/v20240115.1" : String) ≠ "release/v20240115.12" := by
  refine ⟨by decide, by decide, by decide⟩

/-- C1 (amended): for every issue body containing a well-formed
`- Release tag: vYYYYMMDD.N` line and a well-formed
`- Branch: release/vYYYYMMDD.N` line whose sequence number `N` is
exactly one digit, when these lines are the leftmost matches of their
patterns and are not immediately followed by `-hotfix`, `parseIssueBody`
returns exactly those two substrings as tag and branch, regardless of
the surrounding text. -/
theorem C1_extraction_amended (pre mid post d8 e8 : String) (n m : Char)
    (h8 : d8.data.length = 8) (ha : ∀ c ∈ d8.data, isDigitChar c = true)
    (h8' : e8.data.length = 8) (hb : ∀ c ∈ e8.data, isDigitChar c = true)
    (hn : isDigitChar n = true) (hm : isDigitChar m = true)
    (body tag branch : String)
    (hbody : body = pre ++ "- Release tag: v" ++ d8 ++ "." ++ String.mk [n] ++ mid
      ++ "- Branch: release/v" ++ e8 ++ "." ++ String.mk [m] ++ post)
    (htag : tag = "v" ++ d8 ++ "." ++ String.mk [n])
    (hbr : branch = "release/v" ++ e8 ++ "." ++ String.mk [m])
    (hz1 : hotfixStar (mid ++ "- Branch: release/v" ++ e8 ++ "." ++ String.mk [m] ++ post).data = 0)
    (hz2 : hotfixStar post.data = 0)
    (hfirstT : ∀ j, j < pre.data.length → tagMatchAt (body.data.drop j) = none)
    (hfirstB : ∀ j, j < (pre ++ "- Release tag: v" ++ d8 ++ "." ++ String.mk [n] ++ mid).data.length →
      branchMatchAt (body.data.drop j) = none) :
    parseIssueBody body = .ok ⟨tag, branch⟩ :=
  parseIssueBody_wellformed pre mid post d8 e8 n m h8 ha h8' hb hn hm body tag branch
    hbody htag hbr hz1 hz2 hfirstT hfirstB

/-- C1 witness: a concrete body with surrounding prose parses to the
embedded tag and branch. -/
theorem C1_extraction_witness :
    parseIssueBody "Intro text\n- Release tag: v20240115.1\n- Branch: release/v20240115.1\nThanks"
      = .ok ⟨"v" ++ "20240115" ++ "." ++ String.mk ['1'], "release/v" ++ "20240115" ++ "." ++ String.mk ['1']⟩ :=
  C1_extraction_amended "Intro text\n" "\n" "\nThanks" "20240115" "20240115" '1' '1'
    (by decide) (by decide) (by decide) (by decide) (by decide) (by decide)
    "Intro text\n- Release tag: v20240115.1\n- Branch: release/v20240115.1\nThanks" _ _
    (by decide) rfl rfl (by decide) (by decide) (by decide) (by decide)

/-- C2 counterexample: with the `RC` label absent the run does fail and
performs no write, but a network call (the issue fetch) has already
been made, contrary to the claim that no network call occurs. -/
theorem C2_counterexample :
    (run ⟨"t", "w"⟩ ⟨[⟨"QA Approved"⟩], "- Release tag: v20240115.1\n- Branch: release/v20240115.1"⟩ "u").failure
      = some "Issue does not have \"RC\" label"
    ∧ Effect.getIssue ∈ (run ⟨"t", "w"⟩ ⟨[⟨"QA Approved"⟩], "- Release tag: v20240115.1\n- Branch: release/v20240115.1"⟩ "u").effects := by
  constructor <;> decide

/-- C2 (amended): for every label set lacking the `RC` marker, the run
fails right after the single issue-fetch read and before any outbound
write: the eligibility check precedes body parsing, and no release
creation, asset upload, or notification effect occurs. -/
theorem C2_fail_before_writes (i : Inputs) (issue : Issue) (url : String)
    (ht : i.workflowToken ≠ "")
    (hrc : (getLabels issue.labels).contains RC_LABEL = false) :
    run i issue url
      = { effects := [Effect.getIssue], failure := some "Issue does not have \"RC\" label" } := by
  have hrc' : ¬ (RC_LABEL ∈ getLabels issue.labels) := by simpa using hrc
  simp [run, getInput, ht, validateReleaseCandidateIssue, hrc']

/-- C2 witness: a concrete non-candidate issue stops after the fetch. -/
theorem C2_fail_before_writes_witness :
    run ⟨"t", "w"⟩ ⟨[⟨"QA Approved"⟩], "anything"⟩ "u"
      = { effects := [Effect.getIssue], failure := some "Issue does not have \"RC\" label" } :=
  C2_fail_before_writes ⟨"t", "w"⟩ ⟨[⟨"QA Approved"⟩], "anything"⟩ "u" (by decide) (by decide)

/-- C3: with the `RC` marker, an approval-prefixed label, and a parsable
body, the approved path runs: the release is created with `draft =
false` and target equal to the extracted branch, the metadata asset is
attached, and the notification header names the tag and says
`approved`. -/
theorem C3_approved_path (i : Inputs) (issue : Issue) (url tag branch : String)
    (ht : i.workflowToken ≠ "") (hw : i.slackWebhookUrl ≠ "")
    (hrc : (getLabels issue.labels).contains RC_LABEL = true)
    (happ : ∃ l ∈ getLabels issue.labels, ∃ r, approvedLabelText.data ++ r = l.data)
    (hp : parseIssueBody issue.body = .ok ⟨tag, branch⟩) :
    run i issue url =
      { effects := [Effect.getIssue,
          Effect.createRelease tag tag false branch,
          Effect.uploadReleaseAsset "sign-off-metadata.json" issue,
          Effect.postSlack i.slackWebhookUrl (approvedPayload tag branch url)],
        failure := none }
    ∧ (approvedPayload tag branch url).headerText = "[" ++ tag ++ "] Release/Hotfix approved ✅"
    ∧ (∃ a b, (approvedPayload tag branch url).headerText = a ++ tag ++ b)
    ∧ (∃ a b, (approvedPayload tag branch url).headerText = a ++ "approved" ++ b) := by
  have happ' : validateApprovedIssue (getLabels issue.labels) = true := (validApproved_iff _).mpr happ
  have hrc' : RC_LABEL ∈ getLabels issue.labels := by simpa using hrc
  refine ⟨?_, rfl, ⟨"[", "] Release/Hotfix approved ✅", rfl⟩, ?_⟩
  · simp [run, getInput, ht, hw, validateReleaseCandidateIssue, hrc', hp, happ',
      handleReleaseSignedOff, postToSlack]
  · refine ⟨"[" ++ tag ++ "] Release/Hotfix ", " ✅", ?_⟩
    have hsp : ("] Release/Hotfix approved ✅" : String) = "] Release/Hotfix " ++ ("approved" ++ " ✅") := by decide
    simp only [approvedPayload]
    rw [hsp]
    simp [strAppendAssoc]

/-- C3 witness at a concrete approved issue. -/
theorem C3_approved_path_witness :
    run ⟨"t", "w"⟩ ⟨[⟨"RC"⟩, ⟨"QA Approved (alice)"⟩], "- Release tag: v20240115.1\n- Branch: release/v20240115.1"⟩ "u"
      = { effects := [Effect.getIssue,
            Effect.createRelease "v20240115.1" "v20240115.1" false "release/v20240115.1",
            Effect.uploadReleaseAsset "sign-off-metadata.json"
              ⟨[⟨"RC"⟩, ⟨"QA Approved (alice)"⟩], "- Release tag: v20240115.1\n- Branch: release/v20240115.1"⟩,
            Effect.postSlack "w" (approvedPayload "v20240115.1" "release/v20240115.1" "u")],
          failure := none }
    ∧ (approvedPayload "v20240115.1" "release/v20240115.1" "u").headerText
        = "[" ++ "v20240115.1" ++ "] Release/Hotfix approved ✅"
    ∧ (∃ a b, (approvedPayload "v20240115.1" "release/v20240115.1" "u").headerText = a ++ "v20240115.1" ++ b)
    ∧ (∃ a b, (approvedPayload "v20240115.1" "release/v20240115.1" "u").headerText = a ++ "approved" ++ b) :=
  C3_approved_path ⟨"t", "w"⟩ ⟨[⟨"RC"⟩, ⟨"QA Approved (alice)"⟩], "- Release tag: v20240115.1\n- Branch: release/v20240115.1"⟩
    "u" "v20240115.1" "release/v20240115.1" (by decide) (by decide) (by decide)
    ⟨"QA Approved (alice)", by decide, (" (alice)" : String).data, by decide⟩
    (by decide)

/-- C4: with the `RC` marker but no approval-prefixed label, the
rejected path runs: no release-creation call occurs and the
notification header names the tag and says `cancelled`. -/
theorem C4_rejected_path (i : Inputs) (issue : Issue) (url tag branch : String)
    (ht : i.workflowToken ≠ "") (hw : i.slackWebhookUrl ≠ "")
    (hrc : (getLabels issue.labels).contains RC_LABEL = true)
    (hno : ∀ l ∈ getLabels issue.labels, ∀ r, approvedLabelText.data ++ r ≠ l.data)
    (hp : parseIssueBody issue.body = .ok ⟨tag, branch⟩) :
    run i issue url
      = { effects := [Effect.getIssue, Effect.postSlack i.slackWebhookUrl (cancelledPayload tag branch)],
          failure := none }
    ∧ (∀ nm tg dr tc, Effect.createRelease nm tg dr tc ∉ (run i issue url).effects)
    ∧ (cancelledPayload tag branch).headerText = "[" ++ tag ++ "] Release/Hotfix cancelled ❌"
    ∧ (∃ a b, (cancelledPayload tag branch).headerText = a ++ tag ++ b)
    ∧ (∃ a b, (cancelledPayload tag branch).headerText = a ++ "cancelled" ++ b) := by
  have happ' : validateApprovedIssue (getLabels issue.labels) = false := by
    cases hv : validateApprovedIssue (getLabels issue.labels)
    · rfl
    · rcases (validApproved_iff _).mp hv with ⟨l, hl, r, hr⟩
      exact absurd hr (hno l hl r)
  have hrc' : RC_LABEL ∈ getLabels issue.labels := by simpa using hrc
  have hrun : run i issue url
      = { effects := [Effect.getIssue, Effect.postSlack i.slackWebhookUrl (cancelledPayload tag branch)],
          failure := none } := by
    simp [run, getInput, ht, hw, validateReleaseCandidateIssue, hrc', hp, happ',
      handleReleaseCancelled, postToSlack]
  refine ⟨hrun, ?_, rfl, ⟨"[", "] Release/Hotfix cancelled ❌", rfl⟩, ?_⟩
  · intro nm tg dr tc
    rw [hrun]
    simp
  · refine ⟨"[" ++ tag ++ "] Release/Hotfix ", " ❌", ?_⟩
    have hsp : ("] Release/Hotfix cancelled ❌" : String) = "] Release/Hotfix " ++ ("cancelled" ++ " ❌") := by decide
    simp only [cancelledPayload]
    rw [hsp]
    simp [strAppendAssoc]

/-- C4 witness at a concrete rejected issue. -/
theorem C4_rejected_path_witness :
    run ⟨"t", "w"⟩ ⟨[⟨"RC"⟩], "- Release tag: v20240115.1\n- Branch: release/v20240115.1"⟩ "u"
      = { effects := [Effect.getIssue,
            Effect.postSlack "w" (cancelledPayload "v20240115.1" "release/v20240115.1")],
          failure := none }
    ∧ (∀ nm tg dr tc, Effect.createRelease nm tg dr tc
        ∉ (run ⟨"t", "w"⟩ ⟨[⟨"RC"⟩], "- Release tag: v20240115.1\n- Branch: release/v20240115.1"⟩ "u").effects)
    ∧ (cancelledPayload "v20240115.1" "release/v20240115.1").headerText
        = "[" ++ "v20240115.1" ++ "] Release/Hotfix cancelled ❌"
    ∧ (∃ a b, (cancelledPayload "v20240115.1" "release/v20240115.1").headerText = a ++ "v20240115.1" ++ b)
    ∧ (∃ a b, (cancelledPayload "v20240115.1" "release/v20240115.1").headerText = a ++ "cancelled" ++ b) :=
  C4_rejected_path ⟨"t", "w"⟩ ⟨[⟨"RC"⟩], "- Release tag: v20240115.1\n- Branch: release/v20240115.1"⟩
    "u" "v20240115.1" "release/v20240115.1" (by decide) (by decide) (by decide)
    (by
      intro l hl r hr
      have hll : l = "RC" := by simpa [getLabels] using hl
      subst hll
      have hlen := congrArg List.length hr
      rw [List.length_append] at hlen
      have h11 : (approvedLabelText.data).length = 11 := by decide
      have h2 : (("RC" : String).data).length = 2 := by decide
      rw [h11, h2] at hlen
      omega)
    (by decide)

/-- C5: concrete approved scenario: the canonical body with labels
`RC` and `QA Approved` extracts the expected tag and branch, creates
the release targeting the branch with `draft = false`, and posts the
expected header. -/
theorem C5_concrete_approved :
    parseIssueBody "- Release tag: v20240115.1\n- Branch: release/v20240115.1"
      = .ok ⟨"v20240115.1", "release/v20240115.1"⟩
    ∧ run ⟨"t", "w"⟩ ⟨[⟨"RC"⟩, ⟨"QA Approved"⟩], "- Release tag: v20240115.1\n- Branch: release/v20240115.1"⟩ "u"
      = { effects := [Effect.getIssue,
            Effect.createRelease "v20240115.1" "v20240115.1" false "release/v20240115.1",
            Effect.uploadReleaseAsset "sign-off-metadata.json"
              ⟨[⟨"RC"⟩, ⟨"QA Approved"⟩], "- Release tag: v20240115.1\n- Branch: release/v20240115.1"⟩,
            Effect.postSlack "w" (approvedPayload "v20240115.1" "release/v20240115.1" "u")],
          failure := none }
    ∧ (approvedPayload "v20240115.1" "release/v20240115.1" "u").headerText
        = "[v20240115.1] Release/Hotfix approved ✅" := by
  refine ⟨by decide, by decide, by decide⟩

/-- C6: when a pattern fails to match, parsing fails with the matching
field's distinct error message, which embeds the searched body text. -/
theorem C6_missing_field_errors :
    (∀ body, findTag body.data = none → parseIssueBody body = .error (tagErrMsg body))
    ∧ (∀ body t, findTag body.data = some t → findBranch body.data = none →
        parseIssueBody body = .error (branchErrMsg body))
    ∧ (∀ b1 b2, tagErrMsg b1 ≠ branchErrMsg b2)
    ∧ (∀ body, ∃ r, tagErrMsg body = r ++ body)
    ∧ (∀ body, ∃ r, branchErrMsg body = r ++ body) := by
  refine ⟨?_, ?_, errMsg_ne, fun body => ⟨_, rfl⟩, fun body => ⟨_, rfl⟩⟩
  · intro body h
    simp [parseIssueBody, h]
  · intro body t h1 h2
    simp [parseIssueBody, h1, h2]

/-- C6 witness: a body with no patterns fails on the tag, a body with
only a tag line fails on the branch. -/
theorem C6_missing_field_errors_witness :
    parseIssueBody "no patterns here" = .error (tagErrMsg "no patterns here")
    ∧ parseIssueBody "- Release tag: v20240115.1" = .error (branchErrMsg "- Release tag: v20240115.1") :=
  ⟨C6_missing_field_errors.1 "no patterns here" (by decide),
   C6_missing_field_errors.2.1 "- Release tag: v20240115.1" ("v20240115.1" : String).data
     (by decide) (by decide)⟩

/-- C7: the approval decision is a prefix match: it holds exactly when
some label extends the text `QA Approved`, so suffixed labels such as
`QA Approved (alice)` count, while exact-case mismatches do not. -/
theorem C7_approval_prefix_match :
    (∀ labels, validateApprovedIssue labels = true
      ↔ ∃ l ∈ labels, ∃ r, approvedLabelText.data ++ r = l.data)
    ∧ validateApprovedIssue ["QA Approved (alice)"] = true
    ∧ validateApprovedIssue ["qa approved"] = false :=
  ⟨validApproved_iff, by decide, by decide⟩

/-- C8 counterexample: with the webhook input empty but the token set,
an approved run creates the release and uploads the asset before
failing on the missing configuration, so the run does not terminate
before every outbound write call, and the webhook value is not read at
the start of the run. -/
theorem C8_counterexample :
    (run ⟨"t", ""⟩ ⟨[⟨"RC"⟩, ⟨"QA Approved"⟩], "- Release tag: v20240115.1\n- Branch: release/v20240115.1"⟩ "u").failure
      = some "Input \"slack-webhook-url\" was not defined"
    ∧ Effect.createRelease "v20240115.1" "v20240115.1" false "release/v20240115.1"
      ∈ (run ⟨"t", ""⟩ ⟨[⟨"RC"⟩, ⟨"QA Approved"⟩], "- Release tag: v20240115.1\n- Branch: release/v20240115.1"⟩ "u").effects := by
  constructor <;> decide

/-- C8 (amended): the token is read at the start of the run and, when
empty, the run fails before any call at all; the webhook target is read
only when the notification is about to be sent, and when it is empty an
approved run fails with the missing-input message only after the
release-creation and asset-upload writes. -/
theorem C8_config_reads :
    (∀ i issue url, (i : Inputs).workflowToken = "" →
      run i issue url = { effects := [], failure := some "Input \"workflow-token\" was not defined" })
    ∧ (∀ i issue url tag branch, (i : Inputs).workflowToken ≠ "" → i.slackWebhookUrl = "" →
        (getLabels issue.labels).contains RC_LABEL = true →
        validateApprovedIssue (getLabels issue.labels) = true →
        parseIssueBody issue.body = .ok ⟨tag, branch⟩ →
        run i issue url =
          { effects := [Effect.getIssue,
              Effect.createRelease tag tag false branch,
              Effect.uploadReleaseAsset "sign-off-metadata.json" issue],
            failure := some "Input \"slack-webhook-url\" was not defined" }) := by
  constructor
  · intro i issue url h
    simp [run, getInput, h]
  · intro i issue url tag branch ht hw hrc happ hp
    have hrc' : RC_LABEL ∈ getLabels issue.labels := by simpa using hrc
    simp [run, getInput, ht, hw, validateReleaseCandidateIssue, hrc', happ, hp,
      handleReleaseSignedOff, postToSlack]

/-- C8 witness: both configuration failures at concrete inputs. -/
theorem C8_config_reads_witness :
    run ⟨"", "w"⟩ ⟨[⟨"RC"⟩], "x"⟩ "u"
      = { effects := [], failure := some "Input \"workflow-token\" was not defined" }
    ∧ run ⟨"t", ""⟩ ⟨[⟨"RC"⟩, ⟨"QA Approved"⟩], "- Release tag: v20240115.1\n- Branch: release/v20240115.1"⟩ "u"
      = { effects := [Effect.getIssue,
            Effect.createRelease "v20240115.1" "v20240115.1" false "release/v20240115.1",
            Effect.uploadReleaseAsset "sign-off-metadata.json"
              ⟨[⟨"RC"⟩, ⟨"QA Approved"⟩], "- Release tag: v20240115.1\n- Branch: release/v20240115.1"⟩],
          failure := some "Input \"slack-webhook-url\" was not defined" } :=
  ⟨C8_config_reads.1 ⟨"", "w"⟩ ⟨[⟨"RC"⟩], "x"⟩ "u" rfl,
   C8_config_reads.2 ⟨"t", ""⟩
     ⟨[⟨"RC"⟩, ⟨"QA Approved"⟩], "- Release tag: v20240115.1\n- Branch: release/v20240115.1"⟩
     "u" "v20240115.1" "release/v20240115.1" (by decide) rfl (by decide) (by decide) (by decide)⟩

/-- C9: the parser enforces no consistency between the two fields: a
tag and branch with different dates and sequence numbers are both
accepted, and a `hotfix/` branch with a non-hotfix tag is accepted. -/
theorem C9_no_consistency_between_fields :
    parseIssueBody "- Release tag: v20240115.1\n- Branch: release/v20240116.2"
      = .ok ⟨"v20240115.1", "release/v20240116.2"⟩
    ∧ parseIssueBody "- Release tag: v20240115.1\n- Branch: hotfix/v20240115.1"
      = .ok ⟨"v20240115.1", "hotfix/v20240115.1"⟩ := by
  constructor <;> decide

/-- C10: the searches return the capture of the earliest matching
position: if every earlier position fails and position `i` matches with
capture `g`, the search returns `g`, whatever follows; the parser
returns exactly the two searches' captures. -/
theorem C10_earliest_match_wins :
    (∀ s i g, (∀ j, j < i → tagMatchAt (s.drop j) = none) → tagMatchAt (s.drop i) = some g →
      findTag s = some g)
    ∧ (∀ s i g, (∀ j, j < i → branchMatchAt (s.drop j) = none) → branchMatchAt (s.drop i) = some g →
      findBranch s = some g)
    ∧ (∀ body t b, findTag body.data = some t → findBranch body.data = some b →
      parseIssueBody body = .ok ⟨String.mk t, String.mk b⟩) := by
  refine ⟨?_, ?_, parse_ok_of_finds⟩
  · intro s i g h1 h2
    rw [findTag, scanFor_drop tagMatchAt i s h1]
    exact scanFor_of_att _ _ _ h2
  · intro s i g h1 h2
    rw [findBranch, scanFor_drop branchMatchAt i s h1]
    exact scanFor_of_att _ _ _ h2

/-- C10 witness: bodies with two tag lines and two branch lines yield
the earlier captures, and a duplicated later tag line is ignored. -/
theorem C10_earliest_match_wins_witness :
    findTag ("x- Release tag: v11111111.1 and - Release tag: v22222222.2" : String).data
      = some ("v11111111.1" : String).data
    ∧ findBranch ("x- Branch: release/v11111111.1 and - Branch: hotfix/v33333333.3" : String).data
      = some ("release/v11111111.1" : String).data
    ∧ parseIssueBody "- Release tag: v20240115.1\n- Branch: release/v20240115.1\n- Release tag: v99999999.9"
      = .ok ⟨"v20240115.1", "release/v20240115.1"⟩ :=
  ⟨C10_earliest_match_wins.1 _ 1 _ (by decide) (by decide),
   C10_earliest_match_wins.2.1 _ 1 _ (by decide) (by decide),
   C10_earliest_match_wins.2.2 _ ("v20240115.1" : String).data ("release/v20240115.1" : String).data
     (by decide) (by decide)⟩
